/-
Verification of the buildings router (src/routes/buildings.ts) of the
3d-building-webp-frame-backend repository.

The router exposes nine HTTP handlers over a document store of Building
records (each embedding a list of Floor sub-documents) plus two upload
endpoints that forward a file buffer to a remote asset store (Cloudinary)
and, for models, persist the returned URL.

The shallow embedding below models:
  * the document store as a `List Building` (MongoDB collection),
  * free-form request/document fields as association lists
    `List (String  × String)`,
  * each route handler as a pure function from the store and the parsed
    request to a `Resp` (status + JSON body shape) and the new store,
  * the try/catch-all of each handler via an explicit `thrown` parameter:
    `some e` means an awaited operation inside the try block threw an
    error whose `.message` is `e`,
  * the Cloudinary upload promise via an `Except String String` outcome
    (`.error e` = the promise rejected with an error of message `e`,
    `.ok url` = the promise resolved with `secure_url = url`); the
    options object passed to `upload_stream` is reified as
    `UploadParams` and returned as part of the handler output so that
    theorems can speak about the remote destination.
-/
import Mathlib

set_option autoImplicit false

namespace Buildings

/-! ## JavaScript helpers -/

/-- JavaScript `a || b` for a string `a`: the empty string is falsy. -/
def jsOrStr (s fallback : String) : String :=
  if s = "" then fallback else s

/-- JavaScript `a || b` where `a` is a string field that may be absent
(`undefined`): absent and the empty string are falsy. -/
def jsOrOpt (s : Option String) (fallback : String) : String :=
  match s with
  | none => fallback
  | some v => jsOrStr v fallback

/-- JavaScript falsiness of a possibly-absent string (`!x`). -/
def strFalsy : Option String → Bool
  | none => true
  | some s => s = ""

/-- `String(n).padStart(3, '0')` for a string already converted:
left-pad with `'0'` to length 3, leaving longer strings untouched. -/
def padStart3 (s : String) : String :=
  if 3 ≤ s.length then s
  else String.mk (List.replicate (3 - s.length) '0') ++ s

/-! ## Free-form fields (JSON object bodies / unconstrained attributes) -/

/-- A JSON-object body / the free-form attributes of a document,
as an association list from field name to value. -/
abbrev Fields := List (String × String)

/-- Set one field, overwriting an existing entry with the same key. -/
def setField : Fields → String → String → Fields
  | [], k, v => [(k, v)]
  | (k', v') :: rest, k, v =>
    if k' = k then (k, v) :: rest else (k', v') :: setField rest k v

/-- Shallow merge: every field of `upd` overwrites the corresponding
field of `base` (`Object.assign(base, upd)` / `$set` on listed keys). -/
def mergeFields (base upd : Fields) : Fields :=
  upd.foldl (fun acc kv => setField acc kv.1 kv.2) base

/-! ## Data model -/

/-- A Floor sub-document: an `id` plus unconstrained attributes. -/
structure Floor where
  id : String
  attrs : Fields
deriving Repr, DecidableEq

/-- A Building document: stable external `id`, ordered `floors`,
optional `modelPath` URL, `createdAt` timestamp, free-form attributes. -/
structure Building where
  id : String
  floors : List Floor
  modelPath : Option String
  createdAt : Nat
  attrs : Fields
deriving Repr, DecidableEq

/-- The document collection, in insertion order. -/
abbrev Store := List Building

/-- `Building.findOne({ id })`: first document whose `id` matches. -/
def findBuilding (store : Store) (i : String) : Option Building :=
  store.find? (fun b => b.id == i)

/-- The write-back half of `findOneAndUpdate`: replace the first document
whose `id` matches with `nb`. -/
def replaceBuilding : Store → String → Building → Store
  | [], _, _ => []
  | b :: rest, i, nb =>
    if b.id == i then nb :: rest else b :: replaceBuilding rest i nb

/-- `findOneAndDelete({ id })`: remove the first document whose `id`
matches. -/
def removeBuilding : Store → String → Store
  | [], _ => []
  | b :: rest, i => if b.id == i then rest else b :: removeBuilding rest i

/-- Insert into the sort for `.sort({ createdAt: -1 })`. -/
def insertDesc (b : Building) : List Building → List Building
  | [] => [b]
  | c :: rest =>
    if c.createdAt ≤ b.createdAt then b :: c :: rest else c :: insertDesc b rest

/-- `Building.find().sort({ createdAt: -1 })`: all documents ordered by
`createdAt` descending. -/
def sortByCreatedDesc : List Building → List Building
  | [] => []
  | b :: rest => insertDesc b (sortByCreatedDesc rest)

/-- `id: req.body.id || uuidv4()`: the identifier stored at creation,
for both buildings and floors. `bodyId` is the body's `id` field
(`none` = absent) and `fresh` the uuid the generator would produce. -/
def chosenId (bodyId : Option String) (fresh : String) : String :=
  jsOrOpt bodyId fresh

/-! ## Responses -/

/-- The JSON response of a handler: HTTP status plus the body fields the
router ever emits (`message`, `success`, `url`, a building, a list). -/
structure Resp where
  status : Nat
  message : Option String
  success : Option Bool
  url : Option String
  building : Option Building
  buildings : Option (List Building)
deriving Repr, DecidableEq

/-- `res.status(s).json({ message })`. -/
def msgResp (s : Nat) (m : String) : Resp :=
  { status := s, message := some m, success := none, url := none,
    building := none, buildings := none }

/-- `res.status(s).json(building)` (200 when `res.json` is used bare). -/
def buildingResp (s : Nat) (b : Building) : Resp :=
  { status := s, message := none, success := none, url := none,
    building := some b, buildings := none }

/-- `res.status(s).json({ success, message })`. -/
def successMsgResp (s : Nat) (ok : Bool) (m : String) : Resp :=
  { status := s, message := some m, success := some ok, url := none,
    building := none, buildings := none }

/-! ## CRUD handlers

Each handler takes the current store, the parsed request, and a
`thrown : Option String` injecting a failure of an awaited operation
inside its try block (`none` = no failure). Handlers that write return
the new store as well. -/

/-- `GET /` — list all buildings sorted by `createdAt` descending. -/
def getAllBuildings (store : Store) (thrown : Option String) : Resp :=
  match thrown with
  | some _ => msgResp 500 "Server error"
  | none =>
    { status := 200, message := none, success := none, url := none,
      building := none, buildings := some (sortByCreatedDesc store) }

/-- `GET /:id` — fetch one building by id. -/
def getBuildingById (store : Store) (idParam : String)
    (thrown : Option String) : Resp :=
  match thrown with
  | some _ => msgResp 500 "Server error"
  | none =>
    match findBuilding store idParam with
    | none => msgResp 404 "Building not found"
    | some b => buildingResp 200 b

/-- `POST /` — create a building. The body is its optional `id` plus
free-form attributes; `fresh` is the uuid `uuidv4()` would produce and
`now` the server timestamp for `createdAt`. -/
def createBuilding (store : Store) (bodyId : Option String)
    (bodyAttrs : Fields) (fresh : String) (now : Nat)
    (thrown : Option String) : Resp × Store :=
  match thrown with
  | some _ => (msgResp 500 "Server error", store)
  | none =>
    let b : Building :=
      { id := chosenId bodyId fresh, floors := [], modelPath := none,
        createdAt := now, attrs := bodyAttrs }
    (buildingResp 201 b, store ++ [b])

/-- The parsed body of `PUT /:id`: the top-level fields `$set` would
touch. An `id` entry may be present; `attrs` are the free-form keys. -/
structure UpdateBody where
  id : Option String
  modelPath : Option String
  attrs : Fields
deriving Repr, DecidableEq

/-- Modelled from the spec: the Building schema (src/models/Building,
not included under src/) declares `id` immutable after creation, and
the floors array is mutated only through the dedicated floor endpoints,
never through the generic update. So `$set: req.body` on a building
shallow-merges the body's other top-level fields — `modelPath` and the
free-form attributes — and leaves `id` and `floors` unchanged even when
the body carries an `id` entry. -/
def applySet (b : Building) (body : UpdateBody) : Building :=
  { b with
    modelPath := match body.modelPath with
      | some u => some u
      | none => b.modelPath,
    attrs := mergeFields b.attrs body.attrs }

/-- `PUT /:id` — `findOneAndUpdate({ id }, { $set: req.body },
{ new: true })`, 404 when no building matches. -/
def putBuilding (store : Store) (idParam : String) (body : UpdateBody)
    (thrown : Option String) : Resp × Store :=
  match thrown with
  | some _ => (msgResp 500 "Server error", store)
  | none =>
    match findBuilding store idParam with
    | none => (msgResp 404 "Building not found", store)
    | some b =>
      let nb := applySet b body
      (buildingResp 200 nb, replaceBuilding store idParam nb)

/-- `DELETE /:id` — `findOneAndDelete({ id })`. -/
def deleteBuilding (store : Store) (idParam : String)
    (thrown : Option String) : Resp × Store :=
  match thrown with
  | some _ => (msgResp 500 "Server error", store)
  | none =>
    match findBuilding store idParam with
    | none => (msgResp 404 "Building not found", store)
    | some _ =>
      (msgResp 200 "Building deleted successfully",
       removeBuilding store idParam)

/-- `POST /:id/floors` — build the floor from the body (`id` assigned
when absent, as at building creation), `$push` it onto `floors`. -/
def addFloor (store : Store) (idParam : String) (bodyId : Option String)
    (bodyAttrs : Fields) (fresh : String)
    (thrown : Option String) : Resp × Store :=
  match thrown with
  | some _ => (msgResp 500 "Server error", store)
  | none =>
    let floorData : Floor := { id := chosenId bodyId fresh, attrs := bodyAttrs }
    match findBuilding store idParam with
    | none => (msgResp 404 "Building not found", store)
    | some b =>
      let nb := { b with floors := b.floors ++ [floorData] }
      (buildingResp 201 nb, replaceBuilding store idParam nb)

/-- `building.floors.findIndex(f => f.id === floorId)`: index of the
first floor whose id matches, `none` (JS `-1`) when there is none. -/
def findFloorIdx : List Floor → String → Option Nat
  | [], _ => none
  | f :: rest, fid =>
    if f.id == fid then some 0 else (findFloorIdx rest fid).map (· + 1)

/-- `Object.assign(floor, req.body)`: every key of the body overwrites
the floor's corresponding property, including `id` when present. -/
def assignFloor (f : Floor) (bodyId : Option String)
    (bodyAttrs : Fields) : Floor :=
  { id := match bodyId with
      | some v => v
      | none => f.id,
    attrs := mergeFields f.attrs bodyAttrs }

/-- Apply `g` to the element at index `i`, leaving the rest unchanged. -/
def setFloorAt : List Floor → Nat → (Floor → Floor) → List Floor
  | [], _, _ => []
  | f :: rest, 0, g => g f :: rest
  | f :: rest, n + 1, g => f :: setFloorAt rest n g

/-- `PUT /:id/floors/:floorId` — find the building, find the first floor
with the given id (404 "Floor not found" when none), `Object.assign` the
body into it, save the whole document. -/
def putFloor (store : Store) (idParam floorIdParam : String)
    (bodyId : Option String) (bodyAttrs : Fields)
    (thrown : Option String) : Resp × Store :=
  match thrown with
  | some _ => (msgResp 500 "Server error", store)
  | none =>
    match findBuilding store idParam with
    | none => (msgResp 404 "Building not found", store)
    | some b =>
      match findFloorIdx b.floors floorIdParam with
      | none => (msgResp 404 "Floor not found", store)
      | some i =>
        let upd := fun f => assignFloor f bodyId bodyAttrs
        let nb := { b with floors := setFloorAt b.floors i upd }
        (buildingResp 200 nb, replaceBuilding store idParam nb)

/-- `DELETE /:id/floors/:floorId` — `findOneAndUpdate({ id },
{ $pull: { floors: { id: floorId } } }, { new: true })`: remove every
floor whose id matches; 404 only when the building is absent. -/
def deleteFloor (store : Store) (idParam floorIdParam : String)
    (thrown : Option String) : Resp × Store :=
  match thrown with
  | some _ => (msgResp 500 "Server error", store)
  | none =>
    match findBuilding store idParam with
    | none => (msgResp 404 "Building not found", store)
    | some b =>
      let nb := { b with floors := b.floors.filter (fun f => f.id != floorIdParam) }
      (buildingResp 200 nb, replaceBuilding store idParam nb)

/-! ## Upload handlers

The options object the handlers pass to
`cloudinary.uploader.upload_stream` is reified as `UploadParams`; the
promise wrapping the stream is an `Except String String` outcome
(`.error e` = `reject(error)` with `error.message = e`, `.ok url` =
`resolve(result)` with `result.secure_url = url`). Each upload handler
returns the response, the store after the handler, and the upload call
it made (`none` when the upload was never reached). -/

/-- The options object passed to `cloudinary.uploader.upload_stream`. -/
structure UploadParams where
  folder : String
  publicId : String
  resourceType : String
  format : Option String
  overwrite : Bool
deriving Repr, DecidableEq

/-- The options of the frame upload: folder `buildings/{id}/frames`,
public id `frame_` + the frame number padded to 3 digits, image resource
normalized to webp, overwrite enabled. -/
def frameParams (idParam frameNumber : String) : UploadParams :=
  { folder := "buildings/" ++ idParam ++ "/frames",
    publicId := "frame_" ++ padStart3 frameNumber,
    resourceType := "image", format := some "webp", overwrite := true }

/-- The options of the model upload: folder `buildings/{id}/models`,
fixed public id `model`, raw resource, overwrite enabled. -/
def modelParams (idParam : String) : UploadParams :=
  { folder := "buildings/" ++ idParam ++ "/models",
    publicId := "model", resourceType := "raw", format := none,
    overwrite := true }

/-- Output of an upload handler: response, store after the handler, and
the Cloudinary call made, when one was. -/
structure UploadOut where
  resp : Resp
  store : Store
  call : Option UploadParams
deriving Repr, DecidableEq

/-- `POST /:id/upload-frame` — check file, then frame number, then that
the building exists; upload with `frameParams`; on resolve answer
`{ success: true, url }`, on reject answer 500 with
`error.message || 'Failed to upload frame'`. The store is never
written. `file` is `req.file` (its buffer contents are irrelevant here)
and `frameNumber` the multipart body field. -/
def uploadFrame (store : Store) (idParam : String) (file : Option Unit)
    (frameNumber : Option String)
    (outcome : Except String String) : UploadOut :=
  match file with
  | none =>
    { resp := successMsgResp 400 false "No frame file provided",
      store := store, call := none }
  | some _ =>
    if strFalsy frameNumber then
      { resp := successMsgResp 400 false "Frame number is required",
        store := store, call := none }
    else
      match findBuilding store idParam with
      | none =>
        { resp := successMsgResp 404 false "Building not found",
          store := store, call := none }
      | some _ =>
        let params := frameParams idParam (jsOrOpt frameNumber "")
        match outcome with
        | .error e =>
          { resp := successMsgResp 500 false (jsOrStr e "Failed to upload frame"),
            store := store, call := some params }
        | .ok url =>
          { resp := { status := 200, message := none, success := some true,
                      url := some url, building := none, buildings := none },
            store := store, call := some params }

/-- `findOneAndUpdate({ id }, { $set: { modelPath: url } })`: persist
the uploaded model's URL onto the building. -/
def setModelPath (store : Store) (i : String) (url : String) : Store :=
  match findBuilding store i with
  | none => store
  | some b => replaceBuilding store i { b with modelPath := some url }

/-- `POST /:id/upload-model` — check file, then that the building
exists; upload with `modelParams`; on resolve persist the returned URL
into `modelPath` and answer `{ url }`, on reject answer 500
`'Failed to upload model'` without touching the store. -/
def uploadModelH (store : Store) (idParam : String) (file : Option Unit)
    (outcome : Except String String) : UploadOut :=
  match file with
  | none =>
    { resp := msgResp 400 "No file uploaded", store := store, call := none }
  | some _ =>
    match findBuilding store idParam with
    | none =>
      { resp := msgResp 404 "Building not found", store := store, call := none }
    | some _ =>
      match outcome with
      | .error _ =>
        { resp := msgResp 500 "Failed to upload model",
          store := store, call := some (modelParams idParam) }
      | .ok url =>
        { resp := { status := 200, message := none, success := none,
                    url := some url, building := none, buildings := none },
          store := setModelPath store idParam url,
          call := some (modelParams idParam) }

/-! ## Operation sequences

For the id-immutability invariant we close the handlers under
sequencing: an `Op` is one parsed, authenticated request as the
handlers above receive it, and `applyOp` is its effect on the store. -/

/-- One request against the router, with the data the handler consumes. -/
inductive Op where
  | createB (bodyId : Option String) (attrs : Fields) (fresh : String)
      (now : Nat) (thrown : Option String)
  | updateB (idParam : String) (body : UpdateBody) (thrown : Option String)
  | deleteB (idParam : String) (thrown : Option String)
  | addFl (idParam : String) (bodyId : Option String) (attrs : Fields)
      (fresh : String) (thrown : Option String)
  | updFl (idParam floorId : String) (bodyId : Option String)
      (attrs : Fields) (thrown : Option String)
  | delFl (idParam floorId : String) (thrown : Option String)
  | upFrame (idParam : String) (file : Option Unit)
      (frameNumber : Option String) (outcome : Except String String)
  | upModel (idParam : String) (file : Option Unit)
      (outcome : Except String String)

/-- The effect of one request on the store. -/
def applyOp (store : Store) : Op → Store
  | .createB bodyId attrs fresh now thrown =>
    (createBuilding store bodyId attrs fresh now thrown).2
  | .updateB idParam body thrown => (putBuilding store idParam body thrown).2
  | .deleteB idParam thrown => (deleteBuilding store idParam thrown).2
  | .addFl idParam bodyId attrs fresh thrown =>
    (addFloor store idParam bodyId attrs fresh thrown).2
  | .updFl idParam floorId bodyId attrs thrown =>
    (putFloor store idParam floorId bodyId attrs thrown).2
  | .delFl idParam floorId thrown =>
    (deleteFloor store idParam floorId thrown).2
  | .upFrame idParam file frameNumber outcome =>
    (uploadFrame store idParam file frameNumber outcome).store
  | .upModel idParam file outcome =>
    (uploadModelH store idParam file outcome).store

/-- The effect of a request sequence on the store. -/
def applyOps (store : Store) : List Op → Store
  | [] => store
  | o :: ops => applyOps (applyOp store o) ops

/-- The ids assigned at creation by the requests of a sequence. -/
def createdIds : List Op → List String
  | [] => []
  | .createB bodyId _ fresh _ _ :: ops => chosenId bodyId fresh :: createdIds ops
  | _ :: ops => createdIds ops

/-- The building after the in-place update of the floor found between
`pre` and `post` (`Object.assign` on that floor, siblings untouched). -/
def floorUpdatedBuilding (b : Building) (pre post : List Floor) (f : Floor)
    (bodyId : Option String) (attrs : Fields) : Building :=
  { b with floors := pre ++ assignFloor f bodyId attrs :: post }

/-! ## Concrete fixtures used by the witnesses -/

/-- A sample floor. -/
def sampleFloor : Floor := { id := "f1", attrs := [("label", "L1")] }

/-- A sample building with two floors. -/
def sampleBuilding : Building :=
  { id := "b1", floors := [sampleFloor, { id := "f2", attrs := [] }],
    modelPath := none, createdAt := 7, attrs := [("name", "Tower A")] }

/-- A concrete request sequence: one generic update whose body carries an
`id` entry, attempting to overwrite the stored id. -/
def sampleOps : List Op :=
  [Op.updateB "b1"
    { id := some "evil", modelPath := some "https://m", attrs := [("name", "X")] }
    none]

/-- The building `sampleOps` produces from `sampleBuilding`. -/
def sampleUpdated : Building :=
  { id := "b1", floors := [sampleFloor, { id := "f2", attrs := [] }],
    modelPath := some "https://m", createdAt := 7, attrs := [("name", "X")] }

/-! ## Supporting lemmas -/

theorem findBuilding_mem {S : Store} {i : String} {b : Building}
    (h : findBuilding S i = some b) : b ∈ S :=
  List.mem_of_find?_eq_some h

theorem findBuilding_id {S : Store} {i : String} {b : Building}
    (h : findBuilding S i = some b) : b.id = i := by
  have hp := List.find?_some h
  simpa using hp

theorem replaceBuilding_map_id (S : Store) (i : String) (nb : Building)
    (h : nb.id = i) :
    (replaceBuilding S i nb).map Building.id = S.map Building.id := by
  induction S with
  | nil => rfl
  | cons b rest ih =>
    cases hb : (b.id == i) with
    | false => simp [replaceBuilding, hb, ih]
    | true =>
      have hbi : b.id = i := by simpa using hb
      simp [replaceBuilding, hb, h, hbi]

theorem mem_replaceBuilding {S : Store} {i : String} {nb b' : Building}
    (h : b' ∈ replaceBuilding S i nb) : b' ∈ S ∨ b' = nb := by
  induction S with
  | nil => simp [replaceBuilding] at h
  | cons b rest ih =>
    cases hb : (b.id == i) with
    | true =>
      rw [replaceBuilding, if_pos hb] at h
      rcases List.mem_cons.mp h with h | h
      · right; exact h
      · left; exact List.mem_cons_of_mem _ h
    | false =>
      rw [replaceBuilding, if_neg (by simp [hb])] at h
      rcases List.mem_cons.mp h with h | h
      · left; exact h ▸ List.mem_cons_self b rest
      · rcases ih h with h' | h'
        · left; exact List.mem_cons_of_mem _ h'
        · right; exact h'

theorem mem_replaceBuilding_of_ne {S : Store} {i : String} (nb : Building)
    {b' : Building} (hmem : b' ∈ S) (hne : b'.id ≠ i) :
    b' ∈ replaceBuilding S i nb := by
  induction S with
  | nil => simp at hmem
  | cons b rest ih =>
    rcases List.mem_cons.mp hmem with h | h
    · subst h
      have hb : (b'.id == i) = false := by simpa using hne
      rw [replaceBuilding, if_neg (by simp [hb])]
      exact List.mem_cons_self _ _
    · cases hb : (b.id == i) with
      | true =>
        rw [replaceBuilding, if_pos hb]
        exact List.mem_cons_of_mem _ h
      | false =>
        rw [replaceBuilding, if_neg (by simp [hb])]
        exact List.mem_cons_of_mem _ (ih h)

theorem mem_removeBuilding {S : Store} {i : String} {b' : Building}
    (h : b' ∈ removeBuilding S i) : b' ∈ S := by
  induction S with
  | nil => simp [removeBuilding] at h
  | cons b rest ih =>
    cases hb : (b.id == i) with
    | true =>
      rw [removeBuilding, if_pos hb] at h
      exact List.mem_cons_of_mem _ h
    | false =>
      rw [removeBuilding, if_neg (by simp [hb])] at h
      rcases List.mem_cons.mp h with h | h
      · exact h ▸ List.mem_cons_self b rest
      · exact List.mem_cons_of_mem _ (ih h)

theorem findBuilding_replaceBuilding {S : Store} {i : String} {b : Building}
    (nb : Building) (hf : findBuilding S i = some b) (hnb : nb.id = i) :
    findBuilding (replaceBuilding S i nb) i = some nb := by
  induction S with
  | nil => simp [findBuilding] at hf
  | cons c rest ih =>
    cases hc : (c.id == i) with
    | true =>
      rw [replaceBuilding, if_pos hc]
      have hnbi : (nb.id == i) = true := by simpa using hnb
      rw [findBuilding]
      exact List.find?_cons_of_pos _ hnbi
    | false =>
      have hf' : findBuilding rest i = some b := by
        rw [findBuilding, List.find?_cons_of_neg _ (by simp [hc])] at hf
        exact hf
      rw [replaceBuilding, if_neg (by simp [hc])]
      rw [findBuilding, List.find?_cons_of_neg _ (by simp [hc])]
      exact ih hf'

theorem setModelPath_found {S : Store} {i : String} {b : Building}
    (url : String) (hf : findBuilding S i = some b) :
    findBuilding (setModelPath S i url) i =
      some { b with modelPath := some url } := by
  rw [setModelPath, hf]
  exact findBuilding_replaceBuilding _ hf (by simpa using findBuilding_id hf)

theorem findFloorIdx_of_forall_ne {fs : List Floor} {fid : String}
    (h : ∀ f ∈ fs, f.id ≠ fid) : findFloorIdx fs fid = none := by
  induction fs with
  | nil => rfl
  | cons f rest ih =>
    have hf : (f.id == fid) = false := by
      simpa using h f (List.mem_cons_self f rest)
    rw [findFloorIdx, if_neg (by simp [hf])]
    rw [ih (fun g hg => h g (List.mem_cons_of_mem _ hg))]
    rfl

theorem findFloorIdx_first_match {pre post : List Floor} {f : Floor}
    {fid : String} (hpre : ∀ g ∈ pre, g.id ≠ fid) (hf : f.id = fid) :
    findFloorIdx (pre ++ f :: post) fid = some pre.length := by
  induction pre with
  | nil =>
    have : (f.id == fid) = true := by simpa using hf
    simp [findFloorIdx, this]
  | cons g rest ih =>
    have hg : (g.id == fid) = false := by
      simpa using hpre g (List.mem_cons_self g rest)
    rw [List.cons_append, findFloorIdx, if_neg (by simp [hg])]
    rw [ih (fun g' hg' => hpre g' (List.mem_cons_of_mem _ hg'))]
    simp

theorem setFloorAt_first_match (pre post : List Floor) (f : Floor)
    (g : Floor → Floor) :
    setFloorAt (pre ++ f :: post) pre.length g = pre ++ g f :: post := by
  induction pre with
  | nil => rfl
  | cons p rest ih => simpa [setFloorAt] using ih

theorem putBuilding_map_id (S : Store) (i : String) (body : UpdateBody)
    (thrown : Option String) :
    ((putBuilding S i body thrown).2).map Building.id = S.map Building.id := by
  cases thrown with
  | some e => rfl
  | none =>
    cases hf : findBuilding S i with
    | none => simp [putBuilding, hf]
    | some b =>
      have hid : (applySet b body).id = i := by
        simpa [applySet] using findBuilding_id hf
      simp [putBuilding, hf, replaceBuilding_map_id _ _ _ hid]

theorem addFloor_map_id (S : Store) (i : String) (bodyId : Option String)
    (attrs : Fields) (fresh : String) (thrown : Option String) :
    ((addFloor S i bodyId attrs fresh thrown).2).map Building.id =
      S.map Building.id := by
  cases thrown with
  | some e => rfl
  | none =>
    cases hf : findBuilding S i with
    | none => simp [addFloor, hf]
    | some b =>
      simp only [addFloor, hf]
      exact replaceBuilding_map_id _ _ _ (by simpa using findBuilding_id hf)

theorem putFloor_map_id (S : Store) (i fid : String) (bodyId : Option String)
    (attrs : Fields) (thrown : Option String) :
    ((putFloor S i fid bodyId attrs thrown).2).map Building.id =
      S.map Building.id := by
  cases thrown with
  | some e => rfl
  | none =>
    cases hf : findBuilding S i with
    | none => simp [putFloor, hf]
    | some b =>
      cases hi : findFloorIdx b.floors fid with
      | none => simp [putFloor, hf, hi]
      | some j =>
        simp only [putFloor, hf, hi]
        exact replaceBuilding_map_id _ _ _ (by simpa using findBuilding_id hf)

theorem deleteFloor_map_id (S : Store) (i fid : String)
    (thrown : Option String) :
    ((deleteFloor S i fid thrown).2).map Building.id = S.map Building.id := by
  cases thrown with
  | some e => rfl
  | none =>
    cases hf : findBuilding S i with
    | none => simp [deleteFloor, hf]
    | some b =>
      simp only [deleteFloor, hf]
      exact replaceBuilding_map_id _ _ _ (by simpa using findBuilding_id hf)

theorem setModelPath_map_id (S : Store) (i url : String) :
    (setModelPath S i url).map Building.id = S.map Building.id := by
  cases hf : findBuilding S i with
  | none => simp [setModelPath, hf]
  | some b =>
    rw [setModelPath, hf]
    exact replaceBuilding_map_id _ _ _ (by simpa using findBuilding_id hf)

theorem uploadModelH_map_id (S : Store) (i : String) (file : Option Unit)
    (outcome : Except String String) :
    ((uploadModelH S i file outcome).store).map Building.id =
      S.map Building.id := by
  cases file with
  | none => rfl
  | some u =>
    cases hf : findBuilding S i with
    | none => simp [uploadModelH, hf]
    | some b =>
      cases outcome with
      | error e => simp [uploadModelH, hf]
      | ok url => simp [uploadModelH, hf, setModelPath_map_id]

theorem uploadFrame_store (S : Store) (i : String) (file : Option Unit)
    (fn : Option String) (outcome : Except String String) :
    (uploadFrame S i file fn outcome).store = S := by
  cases file with
  | none => rfl
  | some u =>
    cases hfn : strFalsy fn with
    | true => simp [uploadFrame, hfn]
    | false =>
      cases hf : findBuilding S i with
      | none => simp [uploadFrame, hfn, hf]
      | some b => cases outcome <;> simp [uploadFrame, hfn, hf]

theorem createdIds_cons (o : Op) (ops : List Op) :
    createdIds (o :: ops) = createdIds [o] ++ createdIds ops := by
  cases o <;> simp [createdIds]

theorem applyOp_id_mem {S : Store} {o : Op} {b' : Building}
    (h : b' ∈ applyOp S o) :
    b'.id ∈ S.map Building.id ∨ b'.id ∈ createdIds [o] := by
  cases o with
  | createB bodyId attrs fresh now thrown =>
    cases thrown with
    | some e => exact Or.inl (List.mem_map_of_mem _ h)
    | none =>
      rw [applyOp] at h
      rcases List.mem_append.mp h with h | h
      · exact Or.inl (List.mem_map_of_mem _ h)
      · right
        have hb : b'.id = chosenId bodyId fresh := by
          rcases List.mem_singleton.mp h with rfl; rfl
        simp [createdIds, hb]
  | updateB i body thrown =>
    left
    have := List.mem_map_of_mem Building.id h
    rwa [applyOp, putBuilding_map_id] at this
  | deleteB i thrown =>
    left
    cases thrown with
    | some e => exact List.mem_map_of_mem _ h
    | none =>
      rw [applyOp] at h
      refine List.mem_map_of_mem _ ?_
      cases hf : findBuilding S i with
      | none => simpa [deleteBuilding, hf] using h
      | some b =>
        rw [deleteBuilding] at h
        simp only [hf] at h
        exact mem_removeBuilding h
  | addFl i bodyId attrs fresh thrown =>
    left
    have := List.mem_map_of_mem Building.id h
    rwa [applyOp, addFloor_map_id] at this
  | updFl i fid bodyId attrs thrown =>
    left
    have := List.mem_map_of_mem Building.id h
    rwa [applyOp, putFloor_map_id] at this
  | delFl i fid thrown =>
    left
    have := List.mem_map_of_mem Building.id h
    rwa [applyOp, deleteFloor_map_id] at this
  | upFrame i file fn outcome =>
    left
    rw [applyOp, uploadFrame_store] at h
    exact List.mem_map_of_mem _ h
  | upModel i file outcome =>
    left
    have := List.mem_map_of_mem Building.id h
    rwa [applyOp, uploadModelH_map_id] at this

theorem applyOps_id_mem {S : Store} {ops : List Op} {b' : Building}
    (h : b' ∈ applyOps S ops) :
    b'.id ∈ S.map Building.id ∨ b'.id ∈ createdIds ops := by
  induction ops generalizing S with
  | nil => exact Or.inl (List.mem_map_of_mem _ h)
  | cons o ops ih =>
    rw [applyOps] at h
    rcases ih h with h' | h'
    · rcases List.mem_map.mp h' with ⟨b'', hmem, hid⟩
      rcases applyOp_id_mem hmem with h'' | h''
      · exact Or.inl (hid ▸ h'')
      · right
        rw [createdIds_cons, List.mem_append]
        exact Or.inl (hid ▸ h'')
    · right
      rw [createdIds_cons, List.mem_append]
      exact Or.inr h'

theorem padStart3_pads (s : String) :
    ∃ z : String, padStart3 s = z ++ s ∧
      (∀ c ∈ z.toList, c = '0') ∧
      (z ++ s).length = max 3 s.length := by
  by_cases h : 3 ≤ s.length
  · refine ⟨"", ?_, ?_, ?_⟩
    · rw [padStart3, if_pos h]
      cases s
      rfl
    · intro c hc
      simp [String.toList] at hc
    · cases s with
      | mk data =>
        simp only [String.length] at h ⊢
        show (([] : List Char) ++ data).length = max 3 data.length
        simp [List.nil_append]
        omega
  · refine ⟨String.mk (List.replicate (3 - s.length) '0'), ?_, ?_, ?_⟩
    · rw [padStart3, if_neg h]
    · intro c hc
      have : c ∈ List.replicate (3 - s.length) '0' := hc
      exact (List.eq_of_mem_replicate this)
    · cases s with
      | mk data =>
        show ((List.replicate (3 - data.length) '0') ++ data).length =
          max 3 data.length
        simp only [List.length_append, List.length_replicate,
          String.length] at h ⊢
        omega

/-! ## Claim C1 -/

/-- Claim C1 counterexample: the claim says every supplied string id is
preserved, including the empty string. It is false: a create request
whose body carries the explicit id `""` stores the generated uuid, not
`""`, because `req.body.id || uuidv4()` treats the empty string as
falsy. -/
theorem create_empty_id_cex :
    ((createBuilding [] (some "") [] "6f0f3c4e-8a30-4a63-9d28-5f51e1a8f0aa"
        0 none).1.building).map Building.id =
      some "6f0f3c4e-8a30-4a63-9d28-5f51e1a8f0aa" ∧
    ("6f0f3c4e-8a30-4a63-9d28-5f51e1a8f0aa" : String) ≠ "" := by
  exact ⟨rfl, by decide⟩

/-- Claim C1 (amended): a create request whose body carries a non-empty
explicit id stores and returns a building with exactly that id, appended
to the store; the generated uuid is used exactly when the body id is
absent or empty (JavaScript falsiness of `req.body.id || uuidv4()`). -/
theorem create_nonempty_id_preserved (S : Store) (attrs : Fields)
    (fresh : String) (now : Nat) (s : String) (hs : s ≠ "") :
    (∃ b : Building,
      (createBuilding S (some s) attrs fresh now none).1.building = some b ∧
      b.id = s ∧
      (createBuilding S (some s) attrs fresh now none).2 = S ++ [b]) ∧
    chosenId none fresh = fresh ∧
    chosenId (some "") fresh = fresh := by
  refine ⟨⟨Building.mk (chosenId (some s) fresh) [] none now attrs, rfl, ?_, rfl⟩, rfl, rfl⟩
  simp [chosenId, jsOrOpt, jsOrStr, hs]

/-- Witness for claim C1: the amended theorem at the concrete id
`"custom-1"`. -/
theorem create_nonempty_id_preserved_witness :
    (∃ b : Building,
      (createBuilding [] (some "custom-1") [] "GEN" 0 none).1.building = some b ∧
      b.id = "custom-1" ∧
      (createBuilding [] (some "custom-1") [] "GEN" 0 none).2 = [] ++ [b]) ∧
    chosenId none "GEN" = "GEN" ∧
    chosenId (some "") "GEN" = "GEN" :=
  create_nonempty_id_preserved [] [] "GEN" 0 "custom-1" (by decide)

/-! ## Claim C2 -/

/-- Claim C2: `Building.id` is immutable after creation. The generic
update (`$set` of the body, with the schema-declared immutability of
`id` modelled from the spec in `applySet`) never changes any stored id,
whatever the body contains — and across every sequence of router
operations, every building in the store carries either an id it already
had or an id assigned at creation by `chosenId`. -/
theorem building_id_immutable (S : Store) :
    (∀ (i : String) (body : UpdateBody) (thrown : Option String),
      ((putBuilding S i body thrown).2).map Building.id = S.map Building.id) ∧
    (∀ ops : List Op, ∀ b' ∈ applyOps S ops,
      b'.id ∈ S.map Building.id ∨ b'.id ∈ createdIds ops) :=
  ⟨fun i body thrown => putBuilding_map_id S i body thrown,
   fun _ops _b' h => applyOps_id_mem h⟩

/-- Witness for claim C2: the invariant at a concrete store and a
concrete update whose body tries to set `id := "evil"`. -/
theorem building_id_immutable_witness :
    sampleUpdated.id ∈ ([sampleBuilding] : Store).map Building.id ∨
      sampleUpdated.id ∈ createdIds sampleOps :=
  (building_id_immutable [sampleBuilding]).2 sampleOps sampleUpdated (by decide)

/-! ## Claim C4 -/

/-- Claim C4: the frame upload for a supplied frame number targets the
object `frame_` followed by the number left-padded with zeros to 3
digits; a string form longer than 3 digits is used unpadded and
untruncated. Concretely 5 ↦ "005", 42 ↦ "042", 123 ↦ "123",
1500 ↦ "1500". -/
theorem frame_object_name_padded (S : Store) (idParam s : String)
    (outcome : Except String String) (b : Building)
    (hs : s ≠ "") (hb : findBuilding S idParam = some b) :
    (uploadFrame S idParam (some ()) (some s) outcome).call =
      some (frameParams idParam s) ∧
    (∃ z : String,
      (frameParams idParam s).publicId = "frame_" ++ (z ++ s) ∧
      (∀ c ∈ z.toList, c = '0') ∧
      (z ++ s).length = max 3 s.length) ∧
    padStart3 (toString 5) = "005" ∧ padStart3 (toString 42) = "042" ∧
    padStart3 (toString 123) = "123" ∧
    padStart3 (toString 1500) = "1500" := by
  refine ⟨?_, ?_, rfl, rfl, rfl, rfl⟩
  · have hfn : strFalsy (some s) = false := by simpa [strFalsy] using hs
    cases outcome <;> simp [uploadFrame, hfn, hb, jsOrOpt, jsOrStr, hs]
  · rcases padStart3_pads s with ⟨z, hz, hall, hlen⟩
    exact ⟨z, by rw [frameParams, hz], hall, hlen⟩

/-- Witness for claim C4: the frame-number 5 against a concrete store. -/
theorem frame_object_name_padded_witness :
    (uploadFrame [sampleBuilding] "b1" (some ()) (some (toString 5))
        (Except.ok "https://u")).call =
      some (frameParams "b1" (toString 5)) ∧
    (∃ z : String,
      (frameParams "b1" (toString 5)).publicId = "frame_" ++ (z ++ toString 5) ∧
      (∀ c ∈ z.toList, c = '0') ∧
      (z ++ toString 5).length = max 3 (toString 5).length) ∧
    padStart3 (toString 5) = "005" ∧ padStart3 (toString 42) = "042" ∧
    padStart3 (toString 123) = "123" ∧
    padStart3 (toString 1500) = "1500" :=
  frame_object_name_padded [sampleBuilding] "b1" (toString 5)
    (Except.ok "https://u") sampleBuilding (by decide) (by decide)

/-! ## Claim C5 -/

/-- Claim C5: every model upload for a building targets the fixed object
name `model` in that building's model folder with overwrite enabled, and
after two successful model uploads the stored `modelPath` is the URL of
the second upload only. -/
theorem model_upload_single_slot (S : Store) (i : String) (b : Building)
    (u1 u2 : String) (hb : findBuilding S i = some b) :
    (uploadModelH S i (some ()) (Except.ok u1)).call = some (modelParams i) ∧
    (uploadModelH ((uploadModelH S i (some ()) (Except.ok u1)).store) i
        (some ()) (Except.ok u2)).call = some (modelParams i) ∧
    (modelParams i).publicId = "model" ∧
    (modelParams i).overwrite = true ∧
    (modelParams i).folder = "buildings/" ++ i ++ "/models" ∧
    (∃ b2 : Building,
      findBuilding ((uploadModelH ((uploadModelH S i (some ())
          (Except.ok u1)).store) i (some ()) (Except.ok u2)).store) i =
        some b2 ∧
      b2.modelPath = some u2) := by
  have h1store : (uploadModelH S i (some ()) (Except.ok u1)).store =
      setModelPath S i u1 := by
    simp [uploadModelH, hb]
  have hb1 : findBuilding (setModelPath S i u1) i =
      some { b with modelPath := some u1 } :=
    setModelPath_found u1 hb
  refine ⟨by simp [uploadModelH, hb], ?_, rfl, rfl, rfl, ?_⟩
  · rw [h1store]
    simp [uploadModelH, hb1]
  · rw [h1store]
    have h2store : (uploadModelH (setModelPath S i u1) i (some ())
        (Except.ok u2)).store = setModelPath (setModelPath S i u1) i u2 := by
      simp [uploadModelH, hb1]
    rw [h2store]
    exact ⟨_, setModelPath_found u2 hb1, rfl⟩

/-- Witness for claim C5: two concrete model uploads for `sampleBuilding`. -/
theorem model_upload_single_slot_witness :
    (uploadModelH [sampleBuilding] "b1" (some ()) (Except.ok "https://m1")).call =
      some (modelParams "b1") ∧
    (uploadModelH ((uploadModelH [sampleBuilding] "b1" (some ())
        (Except.ok "https://m1")).store) "b1" (some ())
        (Except.ok "https://m2")).call = some (modelParams "b1") ∧
    (modelParams "b1").publicId = "model" ∧
    (modelParams "b1").overwrite = true ∧
    (modelParams "b1").folder = "buildings/" ++ "b1" ++ "/models" ∧
    (∃ b2 : Building,
      findBuilding ((uploadModelH ((uploadModelH [sampleBuilding] "b1"
          (some ()) (Except.ok "https://m1")).store) "b1" (some ())
          (Except.ok "https://m2")).store) "b1" = some b2 ∧
      b2.modelPath = some "https://m2") :=
  model_upload_single_slot [sampleBuilding] "b1" sampleBuilding
    "https://m1" "https://m2" (by decide)

/-! ## Claim C6 -/

/-- Claim C6: update-floor answers 404 "Building not found" when the
building id matches nothing, and the distinct 404 "Floor not found" when
the building exists but no floor carries the floor id; when a floor
matches, the first matching floor is shallow-merged in place and the
whole building document is persisted and returned. -/
theorem update_floor_results (S : Store) (i fid : String)
    (bodyId : Option String) (attrs : Fields) :
    (findBuilding S i = none →
      putFloor S i fid bodyId attrs none = (msgResp 404 "Building not found", S)) ∧
    (∀ b : Building, findBuilding S i = some b →
      (∀ f ∈ b.floors, f.id ≠ fid) →
      putFloor S i fid bodyId attrs none = (msgResp 404 "Floor not found", S)) ∧
    msgResp 404 "Building not found" ≠ msgResp 404 "Floor not found" ∧
    (∀ (b : Building) (pre post : List Floor) (f : Floor),
      findBuilding S i = some b →
      b.floors = pre ++ f :: post →
      (∀ g ∈ pre, g.id ≠ fid) → f.id = fid →
      putFloor S i fid bodyId attrs none =
        (buildingResp 200 (floorUpdatedBuilding b pre post f bodyId attrs),
         replaceBuilding S i (floorUpdatedBuilding b pre post f bodyId attrs))) := by
  refine ⟨?_, ?_, by decide, ?_⟩
  · intro h
    simp [putFloor, h]
  · intro b hb hall
    simp [putFloor, hb, findFloorIdx_of_forall_ne hall]
  · intro b pre post f hb hfl hpre hf
    have hidx : findFloorIdx b.floors fid = some pre.length := by
      rw [hfl]
      exact findFloorIdx_first_match hpre hf
    have hset : setFloorAt b.floors pre.length
        (fun g => assignFloor g bodyId attrs) =
        pre ++ assignFloor f bodyId attrs :: post := by
      rw [hfl]
      exact setFloorAt_first_match pre post f _
    simp only [putFloor, hb, hidx]
    rw [floorUpdatedBuilding, ← hset]

/-- Witness for claim C6: the three outcomes at a concrete store — the
floor-found branch for floor `f2` of `sampleBuilding`. -/
theorem update_floor_results_witness :
    putFloor [sampleBuilding] "b1" "f2" none [("level", "2")] none =
      (buildingResp 200
        (floorUpdatedBuilding sampleBuilding [sampleFloor] []
          { id := "f2", attrs := [] } none [("level", "2")]),
       replaceBuilding [sampleBuilding] "b1"
        (floorUpdatedBuilding sampleBuilding [sampleFloor] []
          { id := "f2", attrs := [] } none [("level", "2")])) :=
  (update_floor_results [sampleBuilding] "b1" "f2" none
      [("level", "2")]).2.2.2 sampleBuilding [sampleFloor] []
    { id := "f2", attrs := [] } (by decide) (by decide)
    (by decide) (by decide)

/-! ## Claim C7 -/

/-- Claim C7: remove-floor removes every floor whose id matches (a
sublist of the original floors survives, exactly the non-matching
ones), answers 404 only when the building is absent, and is a 200
no-op returning the unchanged building when no floor matches. -/
theorem remove_floor_results (S : Store) (i fid : String) :
    (findBuilding S i = none →
      deleteFloor S i fid none = (msgResp 404 "Building not found", S)) ∧
    (∀ b : Building, findBuilding S i = some b →
      ∃ nb : Building,
        deleteFloor S i fid none = (buildingResp 200 nb, replaceBuilding S i nb) ∧
        (∀ f : Floor, f ∈ nb.floors ↔ f ∈ b.floors ∧ f.id ≠ fid) ∧
        nb.floors.Sublist b.floors ∧
        nb.id = b.id ∧ nb.modelPath = b.modelPath ∧
        nb.createdAt = b.createdAt ∧ nb.attrs = b.attrs ∧
        ((∀ f ∈ b.floors, f.id ≠ fid) → nb = b)) := by
  constructor
  · intro h
    simp [deleteFloor, h]
  · intro b hb
    refine ⟨{ b with floors := b.floors.filter (fun f => f.id != fid) },
      by simp [deleteFloor, hb], ?_, ?_, rfl, rfl, rfl, rfl, ?_⟩
    · intro f
      simp [List.mem_filter, bne_iff_ne]
    · exact List.filter_sublist _
    · intro hall
      have hfix : b.floors.filter (fun f => f.id != fid) = b.floors :=
        List.filter_eq_self.mpr
          (fun f hf => by simpa [bne_iff_ne] using hall f hf)
      simp [hfix]

/-- Witness for claim C7: removing the unknown floor id `"zzz"` from
`sampleBuilding` is a success no-op. -/
theorem remove_floor_results_witness :
    ∃ nb : Building,
      deleteFloor [sampleBuilding] "b1" "zzz" none =
        (buildingResp 200 nb, replaceBuilding [sampleBuilding] "b1" nb) ∧
      (∀ f : Floor, f ∈ nb.floors ↔ f ∈ sampleBuilding.floors ∧ f.id ≠ "zzz") ∧
      nb.floors.Sublist sampleBuilding.floors ∧
      nb.id = sampleBuilding.id ∧ nb.modelPath = sampleBuilding.modelPath ∧
      nb.createdAt = sampleBuilding.createdAt ∧
      nb.attrs = sampleBuilding.attrs ∧
      ((∀ f ∈ sampleBuilding.floors, f.id ≠ "zzz") → nb = sampleBuilding) :=
  (remove_floor_results [sampleBuilding] "b1" "zzz").2 sampleBuilding
    (by decide)

/-! ## Claim C8 -/

/-- Claim C8: updating floor `f` (the first floor matching the id,
located between `pre` and `post`) mutates only that floor: the sibling
floors `pre` and `post` and every other top-level field of the building
are unchanged, and other buildings of the store are untouched. -/
theorem update_floor_frame_effect (S : Store) (i fid : String)
    (bodyId : Option String) (attrs : Fields) (b : Building)
    (pre post : List Floor) (f : Floor)
    (hb : findBuilding S i = some b)
    (hfl : b.floors = pre ++ f :: post)
    (hpre : ∀ g ∈ pre, g.id ≠ fid) (hf : f.id = fid) :
    (putFloor S i fid bodyId attrs none).1.building =
      some (floorUpdatedBuilding b pre post f bodyId attrs) ∧
    (putFloor S i fid bodyId attrs none).2 =
      replaceBuilding S i (floorUpdatedBuilding b pre post f bodyId attrs) ∧
    (floorUpdatedBuilding b pre post f bodyId attrs).floors =
      pre ++ assignFloor f bodyId attrs :: post ∧
    (floorUpdatedBuilding b pre post f bodyId attrs).id = b.id ∧
    (floorUpdatedBuilding b pre post f bodyId attrs).modelPath = b.modelPath ∧
    (floorUpdatedBuilding b pre post f bodyId attrs).createdAt = b.createdAt ∧
    (floorUpdatedBuilding b pre post f bodyId attrs).attrs = b.attrs ∧
    (∀ b' ∈ S, b'.id ≠ i →
      b' ∈ replaceBuilding S i (floorUpdatedBuilding b pre post f bodyId attrs)) := by
  have hidx : findFloorIdx b.floors fid = some pre.length := by
    rw [hfl]
    exact findFloorIdx_first_match hpre hf
  have hset : setFloorAt b.floors pre.length
      (fun g => assignFloor g bodyId attrs) =
      pre ++ assignFloor f bodyId attrs :: post := by
    rw [hfl]
    exact setFloorAt_first_match pre post f _
  refine ⟨?_, ?_, rfl, rfl, rfl, rfl, rfl, ?_⟩
  · simp only [putFloor, hb, hidx]
    rw [floorUpdatedBuilding, ← hset]
    rfl
  · simp only [putFloor, hb, hidx]
    rw [floorUpdatedBuilding, ← hset]
  · intro b' hmem hne
    exact mem_replaceBuilding_of_ne _ hmem hne

/-- Witness for claim C8: updating floor `f1` of `sampleBuilding`
leaves floor `f2` and the top-level fields unchanged. -/
theorem update_floor_frame_effect_witness :
    (putFloor [sampleBuilding] "b1" "f1" none [("label", "L9")] none).1.building =
      some (floorUpdatedBuilding sampleBuilding [] [{ id := "f2", attrs := [] }]
        sampleFloor none [("label", "L9")]) ∧
    (putFloor [sampleBuilding] "b1" "f1" none [("label", "L9")] none).2 =
      replaceBuilding [sampleBuilding] "b1"
        (floorUpdatedBuilding sampleBuilding [] [{ id := "f2", attrs := [] }]
          sampleFloor none [("label", "L9")]) ∧
    (floorUpdatedBuilding sampleBuilding [] [{ id := "f2", attrs := [] }]
        sampleFloor none [("label", "L9")]).floors =
      [] ++ assignFloor sampleFloor none [("label", "L9")] ::
        [{ id := "f2", attrs := [] }] ∧
    (floorUpdatedBuilding sampleBuilding [] [{ id := "f2", attrs := [] }]
        sampleFloor none [("label", "L9")]).id = sampleBuilding.id ∧
    (floorUpdatedBuilding sampleBuilding [] [{ id := "f2", attrs := [] }]
        sampleFloor none [("label", "L9")]).modelPath =
      sampleBuilding.modelPath ∧
    (floorUpdatedBuilding sampleBuilding [] [{ id := "f2", attrs := [] }]
        sampleFloor none [("label", "L9")]).createdAt =
      sampleBuilding.createdAt ∧
    (floorUpdatedBuilding sampleBuilding [] [{ id := "f2", attrs := [] }]
        sampleFloor none [("label", "L9")]).attrs = sampleBuilding.attrs ∧
    (∀ b' ∈ ([sampleBuilding] : Store), b'.id ≠ "b1" →
      b' ∈ replaceBuilding [sampleBuilding] "b1"
        (floorUpdatedBuilding sampleBuilding [] [{ id := "f2", attrs := [] }]
          sampleFloor none [("label", "L9")])) :=
  update_floor_frame_effect [sampleBuilding] "b1" "f1" none
    [("label", "L9")] sampleBuilding [] [{ id := "f2", attrs := [] }]
    sampleFloor (by decide) (by decide) (by decide) (by decide)

/-! ## Claim C9 -/

/-- Claim C9: the frame-upload handler checks the file first (400), then
the frame number (400), then the building (404); on success it answers
200 with `success: true` and the URL; every error response carries
`success: false` together with a message. -/
theorem upload_frame_check_order (S : Store) (i : String) :
    (∀ (fn : Option String) (outcome : Except String String),
      (uploadFrame S i none fn outcome).resp =
        successMsgResp 400 false "No frame file provided") ∧
    (∀ (fn : Option String) (outcome : Except String String),
      strFalsy fn = true →
      (uploadFrame S i (some ()) fn outcome).resp =
        successMsgResp 400 false "Frame number is required") ∧
    (∀ (fn : Option String) (outcome : Except String String),
      strFalsy fn = false → findBuilding S i = none →
      (uploadFrame S i (some ()) fn outcome).resp =
        successMsgResp 404 false "Building not found") ∧
    (∀ (fn : Option String) (url : String) (b : Building),
      strFalsy fn = false → findBuilding S i = some b →
      (uploadFrame S i (some ()) fn (Except.ok url)).resp =
        Resp.mk 200 none (some true) (some url) none none) ∧
    (∀ (fn : Option String) (e : String) (b : Building),
      strFalsy fn = false → findBuilding S i = some b →
      (uploadFrame S i (some ()) fn (Except.error e)).resp.status = 500 ∧
      (uploadFrame S i (some ()) fn (Except.error e)).resp.success =
        some false ∧
      ((uploadFrame S i (some ()) fn (Except.error e)).resp.message).isSome =
        true) := by
  refine ⟨fun fn outcome => rfl, ?_, ?_, ?_, ?_⟩
  · intro fn outcome hfn
    simp [uploadFrame, hfn]
  · intro fn outcome hfn hb
    simp [uploadFrame, hfn, hb]
  · intro fn url b hfn hb
    simp [uploadFrame, hfn, hb]
  · intro fn e b hfn hb
    simp [uploadFrame, hfn, hb, successMsgResp]

/-- Witness for claim C9: the success branch at a concrete request. -/
theorem upload_frame_check_order_witness :
    (uploadFrame [sampleBuilding] "b1" (some ()) (some "12")
        (Except.ok "https://u")).resp =
      Resp.mk 200 none (some true) (some "https://u") none none :=
  (upload_frame_check_order [sampleBuilding] "b1").2.2.2.1 (some "12")
    "https://u" sampleBuilding (by decide) (by decide)

/-! ## Claim C10 -/

/-- Claim C10: when the model-upload promise rejects, the handler
answers 500 and the store — hence the building record and its
`modelPath` — is exactly as it was before the request: the persistence
step is never reached. -/
theorem upload_model_reject_atomic (S : Store) (i e : String) :
    (∀ file : Option Unit,
      (uploadModelH S i file (Except.error e)).store = S) ∧
    (∀ b : Building, findBuilding S i = some b →
      (uploadModelH S i (some ()) (Except.error e)).resp =
        msgResp 500 "Failed to upload model") := by
  constructor
  · intro file
    cases file with
    | none => rfl
    | some u =>
      cases hf : findBuilding S i with
      | none => simp [uploadModelH, hf]
      | some b => simp [uploadModelH, hf]
  · intro b hb
    simp [uploadModelH, hb]

/-- Witness for claim C10: a rejected model upload against
`sampleBuilding` answers 500 and leaves the store unchanged. -/
theorem upload_model_reject_atomic_witness :
    (uploadModelH [sampleBuilding] "b1" (some ())
        (Except.error "network down")).resp =
      msgResp 500 "Failed to upload model" :=
  (upload_model_reject_atomic [sampleBuilding] "b1" "network down").2
    sampleBuilding (by decide)

/-! ## Claim C3 -/

/-- Claim C3 counterexample: the claim says every handler's unexpected
failure yields a 500 whose message is a fixed constant, independent of
the error, including the frame-upload handler. It is false there: the
frame-upload 500 body echoes the error's own message, so two different
errors produce two different messages. -/
theorem frame_500_message_cex :
    (uploadFrame [sampleBuilding] "b1" (some ()) (some "1")
        (Except.error "boom")).resp.status = 500 ∧
    (uploadFrame [sampleBuilding] "b1" (some ()) (some "1")
        (Except.error "boom")).resp.message = some "boom" ∧
    (uploadFrame [sampleBuilding] "b1" (some ()) (some "1")
        (Except.error "oops")).resp.status = 500 ∧
    (uploadFrame [sampleBuilding] "b1" (some ()) (some "1")
        (Except.error "oops")).resp.message = some "oops" ∧
    some ("boom" : String) ≠ some ("oops" : String) := by
  decide

/-- Claim C3 (amended): for any error, the seven CRUD handlers answer
500 with the fixed message "Server error" and the model-upload handler
with the fixed "Failed to upload model"; the frame-upload handler
answers 500 with the error's own message, falling back to the fixed
"Failed to upload frame" only when that message is empty. -/
theorem handlers_500_messages (e : String) (S : Store) :
    getAllBuildings S (some e) = msgResp 500 "Server error" ∧
    (∀ i, getBuildingById S i (some e) = msgResp 500 "Server error") ∧
    (∀ bodyId attrs fresh now,
      (createBuilding S bodyId attrs fresh now (some e)).1 =
        msgResp 500 "Server error") ∧
    (∀ i body, (putBuilding S i body (some e)).1 = msgResp 500 "Server error") ∧
    (∀ i, (deleteBuilding S i (some e)).1 = msgResp 500 "Server error") ∧
    (∀ i bodyId attrs fresh,
      (addFloor S i bodyId attrs fresh (some e)).1 =
        msgResp 500 "Server error") ∧
    (∀ i fid bodyId attrs,
      (putFloor S i fid bodyId attrs (some e)).1 =
        msgResp 500 "Server error") ∧
    (∀ i fid, (deleteFloor S i fid (some e)).1 = msgResp 500 "Server error") ∧
    (∀ i b, findBuilding S i = some b →
      (uploadModelH S i (some ()) (Except.error e)).resp =
        msgResp 500 "Failed to upload model") ∧
    (∀ i b fn, findBuilding S i = some b → strFalsy fn = false →
      (uploadFrame S i (some ()) fn (Except.error e)).resp =
        successMsgResp 500 false (jsOrStr e "Failed to upload frame")) := by
  refine ⟨rfl, fun i => rfl, fun bodyId attrs fresh now => rfl, fun i body => rfl,
    fun i => rfl, fun i bodyId attrs fresh => rfl, fun i fid bodyId attrs => rfl,
    fun i fid => rfl, ?_, ?_⟩
  · intro i b hb
    simp [uploadModelH, hb]
  · intro i b fn hb hfn
    simp [uploadFrame, hfn, hb]

/-- Witness for claim C3: the amended theorem at the error "boom"
against a concrete store; the frame-upload 500 message is "boom". -/
theorem handlers_500_messages_witness :
    (uploadFrame [sampleBuilding] "b1" (some ()) (some "1")
        (Except.error "boom")).resp =
      successMsgResp 500 false (jsOrStr "boom" "Failed to upload frame") :=
  (handlers_500_messages "boom" [sampleBuilding]).2.2.2.2.2.2.2.2.2 "b1"
    sampleBuilding (some "1") (by decide) (by decide)

end Buildings
